import Mathlib

set_option autoImplicit false

/-!
Shallow embedding of `app/routes/setup_routes.js`: the five Express route
handlers for the `setups` resource (index, show, create, update, destroy),
together with the collaborators they sequence.  Request handling is modelled
as a pure function from (authenticated identity, path id, parsed body,
persistence outcome) and the current store to the single HTTP response the
request terminates in and the resulting store.
-/

namespace SetupRoutes

/-- A JSON value as it appears in request bodies and stored documents. -/
inductive JValue where
  | str (s : String)
  | num (n : Int)
  | boolean (b : Bool)
  | null
  deriving DecidableEq, Repr

/-- A JavaScript object (the `setup` sub-object of a request body, or a stored
document's fields): an ordered list of key/value pairs, first occurrence of a
key winning on reads. -/
abbrev JObj := List (String × JValue)

/-- Property read `o[k]`: the value at the first occurrence of key `k`. -/
def objGet (o : JObj) (k : String) : Option JValue :=
  match o with
  | [] => none
  | (k2, v) :: rest => if k2 = k then some v else objGet rest k

/-- Property assignment `o[k] = v`: replaces the value at the first occurrence
of `k`, or appends the pair when `k` is absent (JavaScript object update). -/
def objSet (o : JObj) (k : String) (v : JValue) : JObj :=
  match o with
  | [] => [(k, v)]
  | (k2, v2) :: rest => if k2 = k then (k2, v) :: rest else (k2, v2) :: objSet rest k v

/-- `delete o[k]`: removes every pair whose key is `k`. -/
def objDelete (o : JObj) (k : String) : JObj :=
  match o with
  | [] => []
  | (k2, v) :: rest => if k2 = k then objDelete rest k else (k2, v) :: objDelete rest k

/-- A stored setup document: a generated numeric id plus its fields
(the `owner` field lives among the fields, as in the Mongo document). -/
structure SetupRecord where
  sid : Nat
  fields : JObj
  deriving DecidableEq, Repr

/-- `setup.owner`: the `owner` field of a stored document. -/
def SetupRecord.owner (r : SetupRecord) : Option JValue :=
  objGet r.fields "owner"

/-- Mongoose `.toObject()`: serializes a document to a plain object carrying
its id and all of its fields. -/
def SetupRecord.toObject (r : SetupRecord) : JObj :=
  ("_id", JValue.num (Int.ofNat r.sid)) :: r.fields

/-- The document store backing the `Setup` model: the stored records plus a
counter generating fresh ids. -/
structure Store where
  recs : List SetupRecord
  nextId : Nat
  deriving DecidableEq, Repr

/-- `Setup.find()`: every stored record, in store order. -/
def Setup.find (st : Store) : List SetupRecord :=
  st.recs

/-- `Setup.findById(id)`: the stored record with the given id, if any. -/
def Setup.findById (st : Store) (i : Nat) : Option SetupRecord :=
  st.recs.find? (fun r => r.sid == i)

/-- `Setup.create(payload)`: appends a fresh record whose fields are exactly
the payload, returning the created record and the new store. -/
def Setup.create (st : Store) (payload : JObj) : SetupRecord × Store :=
  let r : SetupRecord := ⟨st.nextId, payload⟩
  (r, ⟨st.recs ++ [r], st.nextId + 1⟩)

/-- `setup.updateOne(payload)` field semantics: each key of the payload
overwrites (or adds) the corresponding field of the document. -/
def applyUpdate (fields : JObj) (payload : JObj) : JObj :=
  payload.foldl (fun f p => objSet f p.1 p.2) fields

/-- `setup.updateOne(payload)` on the store: updates the record with the given
id in place, leaving every other record untouched. -/
def Setup.updateOne (st : Store) (i : Nat) (payload : JObj) : Store :=
  { st with
    recs := st.recs.map
      (fun r => if r.sid = i then { r with fields := applyUpdate r.fields payload } else r) }

/-- `setup.deleteOne()` on the store: removes the record with the given id. -/
def Setup.deleteOne (st : Store) (i : Nat) : Store :=
  { st with recs := st.recs.filter (fun r => r.sid != i) }

/-- The failure taxonomy funnelled to the central error responder. -/
inductive HErr where
  | notFound
  | forbidden
  | unauthorized
  | validationError
  | unexpected (msg : String)
  deriving DecidableEq, Repr

/-- A JSON response body: either the index payload or a single serialized
setup. -/
inductive RespBody where
  | setupsList (setups : List JObj)
  | setupObj (setup : JObj)
  deriving DecidableEq, Repr

/-- An HTTP response: a status code and an optional JSON body
(`res.sendStatus(204)` carries no body). -/
structure Response where
  status : Nat
  body : Option RespBody
  deriving DecidableEq, Repr

/-- Modelled from the spec: the central error responder (the error-handling
middleware every handler's `.catch(next)` funnels into; it is not under
`src/`).  Spec section 7: `NotFound` → 404, `Forbidden` → 403,
`Unauthorized` → 401, `ValidationError` → 422-class, `Unexpected` →
500-class, all without leaking internals in the body. -/
def errorResponder : HErr → Response
  | HErr.notFound => ⟨404, none⟩
  | HErr.forbidden => ⟨403, none⟩
  | HErr.unauthorized => ⟨401, none⟩
  | HErr.validationError => ⟨422, none⟩
  | HErr.unexpected _ => ⟨500, none⟩

/-- Modelled from the spec: `lib/custom_errors.handle404` (not under `src/`).
Spec section 4.3: given a lookup result, fails with `NotFound` if it is
absent; otherwise passes the record through unchanged. -/
def handle404 (doc : Option SetupRecord) : Except HErr SetupRecord :=
  match doc with
  | none => Except.error HErr.notFound
  | some r => Except.ok r

/-- Modelled from the spec: `lib/custom_errors.requireOwnership` (not under
`src/`).  Spec section 4.3: given the authenticated identity and a record,
fails with `Forbidden` if `record.owner !== identity`; otherwise returns
normally (no value). -/
def requireOwnership (identity : String) (r : SetupRecord) : Except HErr Unit :=
  if r.owner = some (JValue.str identity) then Except.ok () else Except.error HErr.forbidden

/-- Modelled from the spec: the per-object pass of `lib/remove_blank_fields`
(not under `src/`).  Spec section 4.2: any key whose value is an empty string
is removed; non-string falsy values are not treated as blank. -/
def removeBlanksObj : JObj → JObj
  | [] => []
  | (k, v) :: rest =>
      if v = JValue.str "" then removeBlanksObj rest else (k, v) :: removeBlanksObj rest

/-- Modelled from the spec: the `removeBlanks` middleware applied to the
`setup` sub-object of the body (absent sub-object passes through). -/
def removeBlanks (body : Option JObj) : Option JObj :=
  body.map removeBlanksObj

/-- INDEX, `GET /setups` (no `requireToken` on the route, hence no
authentication argument): `Setup.find()`, each document mapped through
`.toObject()`, then `res.status(200).json({ setups })`. -/
def indexHandler (st : Store) : Response × Store :=
  (⟨200, some (RespBody.setupsList ((Setup.find st).map SetupRecord.toObject))⟩, st)

/-- SHOW, `GET /setups/:id` behind `requireToken` (`auth = none` models a
missing or invalid bearer token, rejected with 401 by passport before the
handler runs): `findById`, `handle404`, then 200 with the serialized record.
There is no ownership check in this handler. -/
def showHandler (auth : Option String) (i : Nat) (st : Store) : Response × Store :=
  match auth with
  | none => (errorResponder HErr.unauthorized, st)
  | some _ =>
    match handle404 (Setup.findById st i) with
    | Except.error e => (errorResponder e, st)
    | Except.ok r => (⟨200, some (RespBody.setupObj r.toObject)⟩, st)

/-- CREATE, `POST /setups` behind `requireToken`.  The handler begins with
`req.body.setup.owner = req.user.id`: when the body has no `setup` object this
dereferences `undefined` and throws a `TypeError`, which Express hands to the
central responder; otherwise the assignment overwrites any client-supplied
`owner` with the caller's identity before `Setup.create`, and the handler
responds 201 with the created record serialized. -/
def createHandler (auth : Option String) (body : Option JObj) (st : Store) : Response × Store :=
  match auth with
  | none => (errorResponder HErr.unauthorized, st)
  | some identity =>
    match body with
    | none => (errorResponder (HErr.unexpected "TypeError"), st)
    | some payload =>
      let created := Setup.create st (objSet payload "owner" (JValue.str identity))
      (⟨201, some (RespBody.setupObj created.1.toObject)⟩, created.2)

/-- UPDATE, `PATCH /setups/:id` behind `requireToken` (the `removeBlanks`
middleware runs before this handler; see `patchRoute`).  The handler begins
with `delete req.body.setup.owner`, a `TypeError` when the body has no `setup`
object; then `findById`, `handle404`, `requireOwnership`, and
`return setup.updateOne(req.body.setup)` whose outcome (modelled by
`updateFails`) is awaited by the chain, so a persistence failure reaches
`.catch(next)` and a success yields `res.sendStatus(204)`. -/
def patchHandler (auth : Option String) (i : Nat) (body : Option JObj)
    (updateFails : Bool) (st : Store) : Response × Store :=
  match auth with
  | none => (errorResponder HErr.unauthorized, st)
  | some identity =>
    match body with
    | none => (errorResponder (HErr.unexpected "TypeError"), st)
    | some payload =>
      match handle404 (Setup.findById st i) with
      | Except.error e => (errorResponder e, st)
      | Except.ok r =>
        match requireOwnership identity r with
        | Except.error e => (errorResponder e, st)
        | Except.ok _ =>
          if updateFails then (errorResponder (HErr.unexpected "update failed"), st)
          else (⟨204, none⟩, Setup.updateOne st i (objDelete payload "owner"))

/-- DESTROY, `DELETE /setups/:id` behind `requireToken`: `findById`,
`handle404`, `requireOwnership`, then `setup.deleteOne()`.  The source does
NOT return the `deleteOne()` result into the promise chain, so its outcome
(modelled by `deleteFails`) is discarded: the following `.then` sends 204
whether or not the deletion succeeded, and a failed deletion never reaches
`.catch(next)`. -/
def deleteHandler (auth : Option String) (i : Nat) (deleteFails : Bool)
    (st : Store) : Response × Store :=
  match auth with
  | none => (errorResponder HErr.unauthorized, st)
  | some identity =>
    match handle404 (Setup.findById st i) with
    | Except.error e => (errorResponder e, st)
    | Except.ok r =>
      match requireOwnership identity r with
      | Except.error e => (errorResponder e, st)
      | Except.ok _ =>
        (⟨204, none⟩, if deleteFails then st else Setup.deleteOne st i)

/-- The `GET /setups` route: the bare index handler. -/
def indexRoute (st : Store) : Response × Store :=
  indexHandler st

/-- The `GET /setups/:id` route. -/
def showRoute (auth : Option String) (i : Nat) (st : Store) : Response × Store :=
  showHandler auth i st

/-- The `POST /setups` route. -/
def createRoute (auth : Option String) (body : Option JObj) (st : Store) : Response × Store :=
  createHandler auth body st

/-- The `PATCH /setups/:id` route: `requireToken`, then the `removeBlanks`
middleware on the body, then the update handler. -/
def patchRoute (auth : Option String) (i : Nat) (body : Option JObj)
    (updateFails : Bool) (st : Store) : Response × Store :=
  patchHandler auth i (removeBlanks body) updateFails st

/-- The `DELETE /setups/:id` route. -/
def deleteRoute (auth : Option String) (i : Nat) (deleteFails : Bool)
    (st : Store) : Response × Store :=
  deleteHandler auth i deleteFails st

/-- One PATCH request, for stating properties of sequences of updates. -/
structure PatchReq where
  auth : Option String
  pid : Nat
  body : Option JObj
  updateFails : Bool

/-- The store after a sequence of PATCH requests. -/
def applyPatches (reqs : List PatchReq) (st : Store) : Store :=
  reqs.foldl (fun s q => (patchRoute q.auth q.pid q.body q.updateFails s).2) st

/-- A concrete stored record owned by user `alice`. -/
def demoRec : SetupRecord :=
  ⟨0, [("owner", JValue.str "alice"), ("title", JValue.str "old")]⟩

/-- A concrete store holding exactly `demoRec`. -/
def demoStore : Store :=
  ⟨[demoRec], 1⟩

/-- A store holding no records. -/
def emptyStore : Store :=
  ⟨[], 0⟩

/-- A PATCH request by the record's owner that tries to reassign `owner`. -/
def hijackReq : PatchReq :=
  ⟨some "alice", 0, some [("owner", JValue.str "mallory"), ("title", JValue.str "new")], false⟩

/-- Reading back the key just assigned returns the assigned value. -/
theorem objGet_objSet_same (o : JObj) (k : String) (v : JValue) :
    objGet (objSet o k v) k = some v := by
  induction o with
  | nil => simp [objSet, objGet]
  | cons q rest ih =>
    obtain ⟨k2, v2⟩ := q
    by_cases h : k2 = k
    · simp [objSet, objGet, h]
    · simp [objSet, objGet, h, ih]

/-- Assigning one key leaves reads of any other key unchanged. -/
theorem objGet_objSet_ne (o : JObj) (k k2 : String) (v : JValue) (hne : k2 ≠ k) :
    objGet (objSet o k2 v) k = objGet o k := by
  induction o with
  | nil => simp [objSet, objGet, hne]
  | cons q rest ih =>
    obtain ⟨k3, v3⟩ := q
    by_cases h : k3 = k2
    · subst h
      simp [objSet, objGet, hne]
    · by_cases h2 : k3 = k
      · simp [objSet, objGet, h, h2, Ne.symm hne]
      · simp [objSet, objGet, h, h2, ih]

/-- Every pair surviving `objDelete o k` came from `o` and has a key other
than `k`. -/
theorem mem_objDelete {o : JObj} {k : String} {p : String × JValue}
    (h : p ∈ objDelete o k) : p ∈ o ∧ p.1 ≠ k := by
  induction o with
  | nil => simp [objDelete] at h
  | cons q rest ih =>
    obtain ⟨k2, v2⟩ := q
    by_cases hk : k2 = k
    · rw [show objDelete ((k2, v2) :: rest) k = objDelete rest k from by
        simp [objDelete, hk]] at h
      exact ⟨List.mem_cons_of_mem _ (ih h).1, (ih h).2⟩
    · rw [show objDelete ((k2, v2) :: rest) k = (k2, v2) :: objDelete rest k from by
        simp [objDelete, hk]] at h
      rcases List.mem_cons.mp h with h1 | h1
      · subst h1
        exact ⟨List.mem_cons_self _ _, hk⟩
      · exact ⟨List.mem_cons_of_mem _ (ih h1).1, (ih h1).2⟩

/-- Unfolding `applyUpdate` one payload entry at a time. -/
theorem applyUpdate_cons (fields : JObj) (q : String × JValue) (rest : JObj) :
    applyUpdate fields (q :: rest) = applyUpdate (objSet fields q.1 q.2) rest :=
  rfl

/-- A payload with no `k` entry cannot change the `k` field of a document. -/
theorem objGet_applyUpdate_of_not_mem (payload : JObj) (fields : JObj) (k : String)
    (h : ∀ p ∈ payload, p.1 ≠ k) :
    objGet (applyUpdate fields payload) k = objGet fields k := by
  induction payload generalizing fields with
  | nil => rfl
  | cons q rest ih =>
    rw [applyUpdate_cons]
    rw [ih (objSet fields q.1 q.2) (fun p hp => h p (List.mem_cons_of_mem _ hp))]
    exact objGet_objSet_ne fields k q.1 q.2 (h q (List.mem_cons_self _ _))

/-- `updateOne` with an `owner`-free payload preserves every record's id and
owner. -/
theorem updateOne_preserves_owner (st : Store) (i : Nat) (payload : JObj)
    (hp : ∀ p ∈ payload, p.1 ≠ "owner") (r2 : SetupRecord)
    (h : r2 ∈ (Setup.updateOne st i payload).recs) :
    ∃ r ∈ st.recs, r2.sid = r.sid ∧ r2.owner = r.owner := by
  unfold Setup.updateOne at h
  rcases List.mem_map.mp h with ⟨r, hr, hf⟩
  refine ⟨r, hr, ?_⟩
  by_cases hi : r.sid = i
  · rw [if_pos hi] at hf
    subst hf
    exact ⟨rfl, objGet_applyUpdate_of_not_mem payload r.fields "owner" hp⟩
  · rw [if_neg hi] at hf
    subst hf
    exact ⟨rfl, rfl⟩

/-- One PATCH request preserves every stored record's id and owner. -/
theorem patchRoute_preserves_owner (auth : Option String) (i : Nat) (body : Option JObj)
    (uf : Bool) (st : Store) (r2 : SetupRecord)
    (h : r2 ∈ (patchRoute auth i body uf st).2.recs) :
    ∃ r ∈ st.recs, r2.sid = r.sid ∧ r2.owner = r.owner := by
  unfold patchRoute patchHandler at h
  cases auth with
  | none => exact ⟨r2, h, rfl, rfl⟩
  | some identity =>
    cases hb : removeBlanks body with
    | none =>
      simp only [hb] at h
      exact ⟨r2, h, rfl, rfl⟩
    | some payload =>
      simp only [hb] at h
      cases hf : handle404 (Setup.findById st i) with
      | error e =>
        simp only [hf] at h
        exact ⟨r2, h, rfl, rfl⟩
      | ok r =>
        simp only [hf] at h
        cases ho : requireOwnership identity r with
        | error e =>
          simp only [ho] at h
          exact ⟨r2, h, rfl, rfl⟩
        | ok u =>
          simp only [ho] at h
          cases uf with
          | true => exact ⟨r2, h, rfl, rfl⟩
          | false =>
            exact updateOne_preserves_owner st i (objDelete payload "owner")
              (fun p hp => (mem_objDelete hp).2) r2 h

/-- Serializing a record exposes exactly its stored `owner` field. -/
theorem objGet_toObject_owner (r : SetupRecord) :
    objGet r.toObject "owner" = r.owner := by
  show (if "_id" = "owner" then some (JValue.num (Int.ofNat r.sid))
        else objGet r.fields "owner") = r.owner
  rw [if_neg (by decide)]
  rfl

/-- C1: for every authenticated POST /setups, whatever `owner` value (if any)
the client supplies inside `body.setup`, the record handed to `Setup.create`
— hence the record appended to the store — carries the caller's identity as
its `owner`, and the 201 response serializes that record with that owner. -/
theorem post_forces_owner_to_caller (identity : String) (payload : JObj) (st : Store) :
    ∃ r : SetupRecord,
      (createRoute (some identity) (some payload) st).2.recs = st.recs ++ [r] ∧
      r.owner = some (JValue.str identity) ∧
      (createRoute (some identity) (some payload) st).1 =
        ⟨201, some (RespBody.setupObj r.toObject)⟩ ∧
      objGet r.toObject "owner" = some (JValue.str identity) := by
  refine ⟨⟨st.nextId, objSet payload "owner" (JValue.str identity)⟩, rfl, ?_, rfl, ?_⟩
  · exact objGet_objSet_same payload "owner" (JValue.str identity)
  · rw [objGet_toObject_owner]
    exact objGet_objSet_same payload "owner" (JValue.str identity)

/-- C4 (failing input): an authenticated DELETE by the record's owner whose
persistence delete operation fails still responds 204 with the store
unchanged — the `deleteOne()` outcome is discarded instead of being awaited
before the response or funnelled to the error responder. -/
theorem delete_responds_204_when_persistence_delete_fails :
    SetupRecord.owner demoRec = some (JValue.str "alice") ∧
    deleteRoute (some "alice") 0 true demoStore = (⟨204, none⟩, demoStore) := by
  decide

/-- C7: GET /setups takes no authentication input and, for every store state,
responds 200 with `{setups: [...]}` holding one serialized plain object per
stored record, in store order, leaving the store unchanged. -/
theorem index_returns_all_records (st : Store) :
    (indexRoute st).1.status = 200 ∧
    (indexRoute st).2 = st ∧
    (indexRoute st).1.body =
      some (RespBody.setupsList (st.recs.map SetupRecord.toObject)) ∧
    (st.recs.map SetupRecord.toObject).length = st.recs.length ∧
    ∀ j : Nat, ∀ hj : j < st.recs.length,
      (st.recs.map SetupRecord.toObject).get ⟨j, by simpa using hj⟩ =
        (st.recs.get ⟨j, hj⟩).toObject := by
  refine ⟨rfl, rfl, rfl, by simp, ?_⟩
  intro j hj
  simp [List.getElem_map]

/-- C7 witness: on the concrete one-record store the index route responds 200
and serializes the record at position 0. -/
theorem index_returns_all_records_witness :
    (0 : Nat) < demoStore.recs.length ∧
    (indexRoute demoStore).1.status = 200 ∧
    (demoStore.recs.map SetupRecord.toObject).get ⟨0, by decide⟩ =
      (demoStore.recs.get ⟨0, by decide⟩).toObject :=
  ⟨by decide, (index_returns_all_records demoStore).1,
    (index_returns_all_records demoStore).2.2.2.2 0 (by decide)⟩

/-- C9: for every authenticated GET /setups/:id on an existing record, the
response is 200 with the serialized record, whatever the requesting identity
is: the show handler has no ownership check, so the response is identical for
any two authenticated identities. -/
theorem show_ignores_ownership (ida idb : String) (i : Nat) (st : Store)
    (r : SetupRecord) (hfind : Setup.findById st i = some r) :
    showRoute (some ida) i st = (⟨200, some (RespBody.setupObj r.toObject)⟩, st) ∧
    showRoute (some ida) i st = showRoute (some idb) i st := by
  unfold showRoute showHandler
  simp [hfind, handle404]

/-- C9 witness: `bob` is not the owner of the stored record, yet the show
route returns it with status 200, and `carol` gets the same response. -/
theorem show_ignores_ownership_witness :
    Setup.findById demoStore 0 = some demoRec ∧
    SetupRecord.owner demoRec ≠ some (JValue.str "bob") ∧
    (showRoute (some "bob") 0 demoStore =
        (⟨200, some (RespBody.setupObj demoRec.toObject)⟩, demoStore) ∧
      showRoute (some "bob") 0 demoStore = showRoute (some "carol") 0 demoStore) :=
  ⟨by decide, by decide,
    show_ignores_ownership "bob" "carol" 0 demoStore demoRec (by decide)⟩

/-- C10: an authenticated POST or PATCH whose body has no `setup` object hits
the unguarded `req.body.setup` dereference, raising a TypeError that the
central responder turns into a 500-class Unexpected response — not a 422
ValidationError — with the store untouched. -/
theorem missing_setup_body_yields_500 (identity : String) (i : Nat) (uf : Bool)
    (st : Store) :
    createRoute (some identity) none st =
      (errorResponder (HErr.unexpected "TypeError"), st) ∧
    patchRoute (some identity) i none uf st =
      (errorResponder (HErr.unexpected "TypeError"), st) ∧
    (createRoute (some identity) none st).1.status = 500 ∧
    (patchRoute (some identity) i none uf st).1.status = 500 ∧
    ¬ (createRoute (some identity) none st).1.status = 422 ∧
    ¬ (patchRoute (some identity) i none uf st).1.status = 422 := by
  exact ⟨rfl, rfl, rfl, rfl, (by decide : ¬(500 : Nat) = 422),
    (by decide : ¬(500 : Nat) = 422)⟩

/-- C2 counterexample: an authenticated PATCH by `bob` on the existing record
owned by `alice`, with a body lacking a `setup` object, responds 500 (the
TypeError path runs before the ownership gate), not 403 as the claim states
for every such request. -/
theorem patch_forbidden_counterexample :
    Setup.findById demoStore 0 = some demoRec ∧
    SetupRecord.owner demoRec ≠ some (JValue.str "bob") ∧
    (patchRoute (some "bob") 0 none false demoStore).1.status = 500 ∧
    ¬ (patchRoute (some "bob") 0 none false demoStore).1.status = 403 := by
  decide

/-- C2 (amended): for every authenticated PATCH whose body carries a `setup`
object, and every authenticated DELETE, on an existing record whose owner
differs from the caller's identity, the response is the Forbidden (403)
response and the store is returned unchanged — the update/delete persistence
operation is never reached. -/
theorem forbidden_blocks_mutation (identity : String) (i : Nat) (payload : JObj)
    (uf df : Bool) (st : Store) (r : SetupRecord)
    (hfind : Setup.findById st i = some r)
    (hown : SetupRecord.owner r ≠ some (JValue.str identity)) :
    patchRoute (some identity) i (some payload) uf st =
      (errorResponder HErr.forbidden, st) ∧
    deleteRoute (some identity) i df st = (errorResponder HErr.forbidden, st) := by
  constructor
  · unfold patchRoute patchHandler removeBlanks
    simp [hfind, handle404, requireOwnership, hown]
  · unfold deleteRoute deleteHandler
    simp [hfind, handle404, requireOwnership, hown]

/-- C2 witness: `bob` patches and deletes the record owned by `alice` and gets
403 with the store intact. -/
theorem forbidden_blocks_mutation_witness :
    Setup.findById demoStore 0 = some demoRec ∧
    SetupRecord.owner demoRec ≠ some (JValue.str "bob") ∧
    (patchRoute (some "bob") 0 (some [("title", JValue.str "new")]) false demoStore =
        (errorResponder HErr.forbidden, demoStore) ∧
      deleteRoute (some "bob") 0 false demoStore =
        (errorResponder HErr.forbidden, demoStore)) :=
  ⟨by decide, by decide,
    forbidden_blocks_mutation "bob" 0 [("title", JValue.str "new")] false false
      demoStore demoRec (by decide) (by decide)⟩

/-- C3 counterexample: an authenticated PATCH on an id absent from the store,
with a body lacking a `setup` object, responds 500 (the TypeError path runs
before `findById`), not 404 as the claim states for every such request. -/
theorem patch_missing_record_counterexample :
    Setup.findById emptyStore 0 = none ∧
    (patchRoute (some "bob") 0 none false emptyStore).1.status = 500 ∧
    ¬ (patchRoute (some "bob") 0 none false emptyStore).1.status = 404 := by
  decide

/-- C3 (amended): for every id absent from the store, authenticated GET and
DELETE — and PATCH whose body carries a `setup` object — respond with the
NotFound (404) response, never 403: `handle404` fires before
`requireOwnership` in every handler, and the 404 status differs from 403. -/
theorem missing_record_404_precedence (identity : String) (i : Nat) (payload : JObj)
    (uf df : Bool) (st : Store)
    (hmiss : Setup.findById st i = none) :
    showRoute (some identity) i st = (errorResponder HErr.notFound, st) ∧
    patchRoute (some identity) i (some payload) uf st =
      (errorResponder HErr.notFound, st) ∧
    deleteRoute (some identity) i df st = (errorResponder HErr.notFound, st) ∧
    (errorResponder HErr.notFound).status = 404 ∧
    ¬ (errorResponder HErr.notFound).status = 403 := by
  refine ⟨?_, ?_, ?_, rfl, by decide⟩
  · unfold showRoute showHandler
    simp [hmiss, handle404]
  · unfold patchRoute patchHandler removeBlanks
    simp [hmiss, handle404]
  · unfold deleteRoute deleteHandler
    simp [hmiss, handle404]

/-- C3 witness: on the empty store, GET, PATCH (with a `setup` object) and
DELETE at id 0 all yield the 404 NotFound response. -/
theorem missing_record_404_precedence_witness :
    Setup.findById emptyStore 0 = none ∧
    (showRoute (some "bob") 0 emptyStore = (errorResponder HErr.notFound, emptyStore) ∧
      patchRoute (some "bob") 0 (some [("title", JValue.str "new")]) false emptyStore =
        (errorResponder HErr.notFound, emptyStore) ∧
      deleteRoute (some "bob") 0 false emptyStore =
        (errorResponder HErr.notFound, emptyStore) ∧
      (errorResponder HErr.notFound).status = 404 ∧
      ¬ (errorResponder HErr.notFound).status = 403) :=
  ⟨by decide,
    missing_record_404_precedence "bob" 0 [("title", JValue.str "new")] false false
      emptyStore (by decide)⟩

/-- C5: the blank-field sanitizer keeps exactly the entries whose value is not
the empty string; end to end, patching with a blank `title` leaves the store
unchanged (204), patching with `title = "x"` stores `"x"`, and the non-string
falsy values 0 and false survive sanitizing and are persisted. -/
theorem removeBlanks_strips_exactly_empty_strings (p : JObj) (k : String) (v : JValue) :
    ((k, v) ∈ removeBlanksObj p ↔ ((k, v) ∈ p ∧ v ≠ JValue.str "")) ∧
    patchRoute (some "alice") 0 (some [("title", JValue.str "")]) false demoStore =
      (⟨204, none⟩, demoStore) ∧
    (patchRoute (some "alice") 0 (some [("title", JValue.str "x")]) false demoStore).2.recs =
      [⟨0, [("owner", JValue.str "alice"), ("title", JValue.str "x")]⟩] ∧
    (patchRoute (some "alice") 0
        (some [("n", JValue.num 0), ("b", JValue.boolean false)]) false demoStore).2.recs =
      [⟨0, [("owner", JValue.str "alice"), ("title", JValue.str "old"),
            ("n", JValue.num 0), ("b", JValue.boolean false)]⟩] := by
  refine ⟨?_, by decide, by decide, by decide⟩
  induction p with
  | nil => simp [removeBlanksObj]
  | cons q rest ih =>
    obtain ⟨k2, v2⟩ := q
    by_cases h : v2 = JValue.str ""
    · subst h
      rw [show removeBlanksObj ((k2, JValue.str "") :: rest) = removeBlanksObj rest from by
        simp [removeBlanksObj]]
      rw [ih]
      constructor
      · rintro ⟨h1, h2⟩
        exact ⟨List.mem_cons_of_mem _ h1, h2⟩
      · rintro ⟨h1, h2⟩
        rcases List.mem_cons.mp h1 with h3 | h3
        · exact absurd (congrArg Prod.snd h3) h2
        · exact ⟨h3, h2⟩
    · rw [show removeBlanksObj ((k2, v2) :: rest) = (k2, v2) :: removeBlanksObj rest from by
        simp [removeBlanksObj, h]]
      constructor
      · intro h1
        rcases List.mem_cons.mp h1 with h3 | h3
        · refine ⟨List.mem_cons.mpr (Or.inl h3), ?_⟩
          rw [show v = v2 from congrArg Prod.snd h3]
          exact h
        · exact ⟨List.mem_cons_of_mem _ (ih.mp h3).1, (ih.mp h3).2⟩
      · rintro ⟨h1, h2⟩
        rcases List.mem_cons.mp h1 with h3 | h3
        · exact List.mem_cons.mpr (Or.inl h3)
        · exact List.mem_cons_of_mem _ (ih.mpr ⟨h3, h2⟩)

/-- C6: no sequence of PATCH requests changes any stored record's owner: every
record in the store after the sequence descends from a record of the initial
store with the same id and the same owner (the handler deletes any `owner`
key from the payload before `updateOne`). -/
theorem owner_immutable_across_updates (reqs : List PatchReq) (st : Store)
    (r2 : SetupRecord) (h : r2 ∈ (applyPatches reqs st).recs) :
    ∃ r ∈ st.recs, r2.sid = r.sid ∧ r2.owner = r.owner := by
  induction reqs generalizing st with
  | nil => exact ⟨r2, h, rfl, rfl⟩
  | cons q rest ih =>
    obtain ⟨rm, hm, hsid, hown⟩ :=
      ih ((patchRoute q.auth q.pid q.body q.updateFails st).2) h
    obtain ⟨r, hr, hsid2, hown2⟩ :=
      patchRoute_preserves_owner q.auth q.pid q.body q.updateFails st rm hm
    exact ⟨r, hr, hsid.trans hsid2, hown.trans hown2⟩

/-- C6 witness: after the owner `alice` patches the record with a payload that
tries to set `owner` to `mallory`, the stored record still descends from the
initial record with owner `alice`. -/
theorem owner_immutable_across_updates_witness :
    (⟨0, [("owner", JValue.str "alice"), ("title", JValue.str "new")]⟩ : SetupRecord) ∈
      (applyPatches [hijackReq] demoStore).recs ∧
    ∃ r ∈ demoStore.recs,
      (⟨0, [("owner", JValue.str "alice"), ("title", JValue.str "new")]⟩ :
        SetupRecord).sid = r.sid ∧
      (⟨0, [("owner", JValue.str "alice"), ("title", JValue.str "new")]⟩ :
        SetupRecord).owner = r.owner :=
  ⟨by decide,
    owner_immutable_across_updates [hijackReq] demoStore
      ⟨0, [("owner", JValue.str "alice"), ("title", JValue.str "new")]⟩ (by decide)⟩

/-- C8: an authenticated PATCH (with a `setup` object in the body) or DELETE
by the record's owner whose persistence operation succeeds responds with
status 204 and no body. -/
theorem owner_mutation_success_204_no_body (identity : String) (i : Nat)
    (payload : JObj) (st : Store) (r : SetupRecord)
    (hfind : Setup.findById st i = some r)
    (hown : SetupRecord.owner r = some (JValue.str identity)) :
    (patchRoute (some identity) i (some payload) false st).1 = ⟨204, none⟩ ∧
    (deleteRoute (some identity) i false st).1 = ⟨204, none⟩ := by
  constructor
  · unfold patchRoute patchHandler removeBlanks
    simp [hfind, handle404, requireOwnership, hown]
  · unfold deleteRoute deleteHandler
    simp [hfind, handle404, requireOwnership, hown]

/-- C8 witness: the owner `alice` patches and deletes the record and both
responses are 204 with no body. -/
theorem owner_mutation_success_204_no_body_witness :
    Setup.findById demoStore 0 = some demoRec ∧
    SetupRecord.owner demoRec = some (JValue.str "alice") ∧
    ((patchRoute (some "alice") 0 (some [("title", JValue.str "new")]) false
        demoStore).1 = ⟨204, none⟩ ∧
      (deleteRoute (some "alice") 0 false demoStore).1 = ⟨204, none⟩) :=
  ⟨by decide, by decide,
    owner_mutation_success_204_no_body "alice" 0 [("title", JValue.str "new")]
      demoStore demoRec (by decide) (by decide)⟩

end SetupRoutes
